import Mathlib

/-!
Verification development for the openclaw identity / scope / persistence
subsystem.

The TypeScript sources are shallowly embedded as Lean definitions:

* `Parse`    — session-key parsing (`deriveChannel` / `derivePeerId` from
  `extensions/auth-memory-gate/src/scope.ts`, duplicated verbatim in
  `extensions/persist-user-identity/src/index.ts`).
* `Scope`    — scope resolution and scope-block formatting
  (`extensions/auth-memory-gate/src/scope.ts`).
* `Jwt`      — local HS256 token verification
  (`jwt.ts` of persist-user-identity).
* `Identity` — the `lp_users` / `lp_user_channels` store and the `/verify`
  command handler (`db.ts` and `index.ts` of persist-user-identity).
* `Ledger`   — the `lp_conversations` / `lp_messages` store
  (`extensions/persist-postgres/src/db.ts`).

JavaScript string primitives (`String.prototype.split` with a one-character
separator, `Array.prototype.join`, `Array.prototype.indexOf`) are embedded as
executable Lean functions with the same semantics.  Database tables are lists
of rows; SQL `ON CONFLICT` upserts become find-and-update on those lists;
`now()` timestamps are passed explicitly as naturals.  External primitives
that live outside the repository (the HMAC of `node:crypto`, base64url
decoding and JSON parsing of `Buffer`/`JSON.parse`, the network fetch of the
verify endpoint) are parameters of the embedding, so every theorem holds for
every behaviour of those primitives.
-/

-- ===========================================================================
-- JavaScript string primitives
-- ===========================================================================

namespace Js

/-- Splitting a character list at every occurrence of `sep`; the semantics of
JavaScript `String.prototype.split` with a one-character separator (the
result is never empty, and empty fragments are kept). -/
def splitCharList (sep : Char) : List Char → List (List Char)
  | [] => [[]]
  | c :: rest =>
    match splitCharList sep rest with
    | [] => [[]]
    | h :: t => if c = sep then [] :: h :: t else (c :: h) :: t

/-- Embedding of `s.split(sep)` for a one-character separator `sep`. -/
def split (sep : Char) (s : String) : List String :=
  (splitCharList sep s.data).map String.mk

/-- Embedding of `arr.join(sep)` (JavaScript `Array.prototype.join`). -/
def join (sep : String) : List String → String
  | [] => ""
  | [x] => x
  | x :: y :: t => x ++ sep ++ join sep (y :: t)

/-- Embedding of `arr.indexOf(x)` on string arrays: the first index holding
`x`, and `-1` when `x` does not occur. -/
def indexOfStr : List String → String → Int
  | [], _ => -1
  | y :: t, x =>
    if y = x then 0
    else
      let r := indexOfStr t x
      if r < 0 then -1 else r + 1

/-- JavaScript truthiness of an optional string: `undefined`/`null` and the
empty string are falsy. -/
def strTruthy : Option String → Bool
  | none => false
  | some s => s != ""

end Js

-- ===========================================================================
-- Session-key parsing
-- scope.ts lines 36-67 (= persist-user-identity index.ts lines 21-52)
-- ===========================================================================

namespace Parse

/-- Embedding of `deriveChannel` (scope.ts lines 36-42): third `:`-separated
segment when the key has at least three segments and starts with `agent`,
otherwise `"unknown"`. -/
def deriveChannel (sessionKey : String) : String :=
  let parts := Js.split ':' sessionKey
  if 3 ≤ parts.length ∧ parts.getD 0 "" = "agent" then parts.getD 2 ""
  else "unknown"

/-- Embedding of `derivePeerId` (scope.ts lines 53-67): degrade to the
original string for malformed keys; otherwise drop `agent:{agentId}`, honour
a `direct` marker when one is followed by at least one more segment, and
re-join the remaining segments with `:`. -/
def derivePeerId (sessionKey : String) : String :=
  let parts := Js.split ':' sessionKey
  if parts.length < 3 ∨ parts.getD 0 "" ≠ "agent" then sessionKey
  else
    let rest := parts.drop 2
    let directIdx := Js.indexOfStr rest "direct"
    if 0 ≤ directIdx ∧ directIdx < (rest.length : Int) - 1 then
      Js.join ":" (rest.drop (directIdx.toNat + 1))
    else if 2 ≤ rest.length then
      Js.join ":" (rest.drop 1)
    else
      rest.getD 0 sessionKey

/-- A session key of the shape `agent:{a}:{c}:{p1}:{p2}`. -/
def sessionKey5 (a c p1 p2 : String) : String :=
  "agent:" ++ a ++ ":" ++ c ++ ":" ++ p1 ++ ":" ++ p2

/-- A string that contains no `:` separator, i.e. a single key segment. -/
def colonFree (s : String) : Prop := ':' ∉ s.data

instance (s : String) : Decidable (colonFree s) := by
  unfold colonFree
  infer_instance

end Parse

-- ===========================================================================
-- Substring occurrence (used to state what a formatted block does or does
-- not reveal)
-- ===========================================================================

namespace Js

/-- Whether `pat` occurs at the head of `l`. -/
def isPrefixList : List Char → List Char → Bool
  | [], _ => true
  | _ :: _, [] => false
  | a :: as, b :: bs => a = b && isPrefixList as bs

/-- Whether `pat` occurs anywhere inside `l`. -/
def hasInfixList (pat : List Char) : List Char → Bool
  | [] => isPrefixList pat []
  | c :: rest => isPrefixList pat (c :: rest) || hasInfixList pat rest

/-- Whether the string `pat` occurs as a contiguous substring of `s`. -/
def strContains (s pat : String) : Bool :=
  hasInfixList pat.data s.data

end Js

-- ===========================================================================
-- Scope resolution and scope-block formatting
-- extensions/auth-memory-gate/src/scope.ts
-- ===========================================================================

namespace Scope

/-- Embedding of `ScopeConfig` (scope.ts lines 7-10).  Both fields are
optional in the source; JavaScript truthiness applies where they are read. -/
structure ScopeConfig where
  requireVerified : Option Bool
  gateMessage : Option String
deriving DecidableEq

/-- Embedding of the `IdentityRow` returned by the `lp_users` +
`lp_user_channels` JOIN (scope.ts lines 22-30).  `verified` is computed by
the query as `external_id IS NOT NULL`. -/
structure IdentityRow where
  id : String
  external_id : Option String
  first_name : Option String
  last_name : Option String
  channel : String
  channel_peer_id : String
  verified : Bool
deriving DecidableEq

/-- Embedding of `ScopeResult` (scope.ts lines 12-19). -/
structure ScopeResult where
  userId : String
  externalId : Option String
  scopeKey : String
  verified : Bool
  channel : String
  peerId : String
deriving DecidableEq

/-- Embedding of `resolveScope` (scope.ts lines 104-117):
`scopeKey = identity.external_id ?? identity.id`. -/
def resolveScope (identity : IdentityRow) (channel peerId : String) :
    ScopeResult :=
  { userId := identity.id
    externalId := identity.external_id
    scopeKey := identity.external_id.getD identity.id
    verified := identity.verified
    channel := channel
    peerId := peerId }

/-- Embedding of `formatGatedMessage` (scope.ts lines 158-173).  The custom
message is trimmed and used only when truthy; otherwise two default lines are
appended after the gated block. -/
def formatGatedMessage (config : ScopeConfig) : String :=
  let customMsg := config.gateMessage.map String.trim
  let header := ["[MEMORY_SCOPE]", "gated: true", "[/MEMORY_SCOPE]", ""]
  let lines :=
    if Js.strTruthy customMsg then header ++ [customMsg.getD ""]
    else header ++
      ["Memory retrieval is not available until identity is verified.",
       "The user can verify by typing: /verify <token>"]
  Js.join "\n" lines

/-- Embedding of `formatScopeBlock` (scope.ts lines 138-153): the gate check
`config.requireVerified && !scope.verified` delegates to
`formatGatedMessage`; otherwise the six-line scope block is joined. -/
def formatScopeBlock (scope : ScopeResult) (config : ScopeConfig) : String :=
  if config.requireVerified.getD false = true ∧ scope.verified = false then
    formatGatedMessage config
  else
    Js.join "\n"
      ["[MEMORY_SCOPE]",
       "scope_key: " ++ scope.scopeKey,
       "user_id: " ++ scope.userId,
       "external_id: " ++ scope.externalId.getD "none",
       "verified: " ++ (if scope.verified then "true" else "false"),
       "gated: false",
       "[/MEMORY_SCOPE]"]

end Scope

-- ===========================================================================
-- Local HS256 token verification
-- persist-user-identity jwt.ts
-- ===========================================================================

namespace Jwt

/-- The `aud` claim of a decoded payload: absent, a single string, or an
array of strings (jwt.ts line 15: `aud?: string | string[]`). -/
inductive AudClaim where
  | absent : AudClaim
  | one : String → AudClaim
  | many : List String → AudClaim
deriving DecidableEq

/-- Embedding of the claim fields of `JWTPayload` (jwt.ts lines 7-17) that
`verifyHS256` reads.  Absent claims are `none`. -/
structure JWTPayload where
  sub : Option String
  given_name : Option String
  family_name : Option String
  name : Option String
  email : Option String
  exp : Option Int
  iss : Option String
  aud : AudClaim
deriving DecidableEq

/-- Embedding of `AuthConfig` (jwt.ts lines 19-25) restricted to the fields
`verifyHS256` reads (`mode` and `verifyEndpoint` only select the strategy). -/
structure AuthConfig where
  jwtSecret : Option String
  issuer : Option String
  audience : Option String
deriving DecidableEq

/-- Embedding of `VerifiedIdentity` (jwt.ts lines 30-36). -/
structure VerifiedIdentity where
  externalId : String
  firstName : Option String
  lastName : Option String
  email : Option String
  raw : JWTPayload
deriving DecidableEq

/-- The expiry rejection test of jwt.ts line 89:
`decoded.exp && decoded.exp < Math.floor(Date.now() / 1000)`.  A missing
claim and the (falsy) value `0` both skip the check. -/
def expRejected (exp : Option Int) (now : Int) : Bool :=
  match exp with
  | none => false
  | some e => e != 0 && decide (e < now)

/-- The issuer rejection test of jwt.ts line 94:
`config.issuer && decoded.iss !== config.issuer`. -/
def issRejected (cfgIss iss : Option String) : Bool :=
  Js.strTruthy cfgIss && iss != cfgIss

/-- The audience list of jwt.ts line 100:
`Array.isArray(decoded.aud) ? decoded.aud : [decoded.aud]`, where a missing
claim yields a list whose only element can match no configured audience. -/
def audList : AudClaim → List String
  | .absent => []
  | .one s => [s]
  | .many l => l

/-- The audience rejection test of jwt.ts lines 99-104:
`config.audience && !aud.includes(config.audience)`. -/
def audRejected (cfgAud : Option String) (aud : AudClaim) : Bool :=
  Js.strTruthy cfgAud && !(audList aud).contains (cfgAud.getD "")

/-- The name fallback of jwt.ts lines 111-115: split the display name on
spaces; first token is the first name, the re-joined remainder is the last
name, with the empty string demoted to `none`. -/
def nameFromPayload (decoded : JWTPayload) : Option String × Option String :=
  let nameParts := match decoded.name with
    | some n => Js.split ' ' n
    | none => []
  let firstName := decoded.given_name <|> nameParts.get? 0
  let lastName := decoded.family_name <|>
    (let r := Js.join " " (nameParts.drop 1)
     if r = "" then none else some r)
  (firstName, lastName)

/-- Embedding of `verifyHS256` (jwt.ts lines 63-119).  The primitives that
live outside the repository are parameters: `hmac secret data` models
`createHmac("sha256", secret).update(data).digest("base64url")`, `decode64`
models `Buffer.from(s, "base64url")` (a byte list), and `parseJson` models
`JSON.parse(Buffer.from(payload, "base64url").toString())` together with its
`catch` (`none` = malformed encoding).  `now` is
`Math.floor(Date.now() / 1000)`. -/
def verifyHS256 (hmac : String → String → String)
    (decode64 : String → List Nat) (parseJson : String → Option JWTPayload)
    (now : Int) (token : String) (config : AuthConfig) :
    Option VerifiedIdentity :=
  match Js.split '.' token with
  | [header, payload, signature] =>
    let expected := hmac (config.jwtSecret.getD "") (header ++ "." ++ payload)
    let sigBuf := decode64 signature
    let expBuf := decode64 expected
    if sigBuf.length ≠ expBuf.length ∨ sigBuf ≠ expBuf then none
    else
      match parseJson payload with
      | none => none
      | some decoded =>
        if expRejected decoded.exp now then none
        else if issRejected config.issuer decoded.iss then none
        else if audRejected config.audience decoded.aud then none
        else if ¬ Js.strTruthy decoded.sub then none
        else
          some { externalId := decoded.sub.getD ""
                 firstName := (nameFromPayload decoded).1
                 lastName := (nameFromPayload decoded).2
                 email := decoded.email
                 raw := decoded }
  | _ => none

end Jwt

-- ===========================================================================
-- Identity store and /verify command handler
-- persist-user-identity db.ts (src/unnamed/part_000) and index.ts
-- ===========================================================================

namespace Identity

/-- Embedding of a `lp_users` row (`UserRow`, db.ts lines 7-14).  UUIDs are
modelled as naturals drawn from a counter; timestamps as naturals. -/
structure UserRow where
  id : Nat
  external_id : Option String
  first_name : Option String
  last_name : Option String
  created_at : Nat
  updated_at : Nat
deriving DecidableEq

/-- Embedding of a `lp_user_channels` row (`UserChannelRow`, db.ts lines
16-22). -/
structure UserChannelRow where
  id : Nat
  user_id : Nat
  channel : String
  channel_peer_id : String
  linked_at : Nat
deriving DecidableEq

/-- Embedding of `ResolvedIdentity` (db.ts lines 25-29): a user row joined
with its channel link, plus `verified = (external_id IS NOT NULL)`. -/
structure ResolvedIdentity where
  id : Nat
  external_id : Option String
  first_name : Option String
  last_name : Option String
  created_at : Nat
  updated_at : Nat
  channel : String
  channel_peer_id : String
  verified : Bool
deriving DecidableEq

/-- The identity database: the `lp_users` and `lp_user_channels` tables plus
the id counters that stand in for `gen_random_uuid()`. -/
structure Db where
  users : List UserRow
  links : List UserChannelRow
  nextUserId : Nat
  nextLinkId : Nat
deriving DecidableEq

/-- Row predicate for the `(channel, channel_peer_id)` lookup. -/
def linkKeyIs (channel peerId : String) (l : UserChannelRow) : Bool :=
  l.channel = channel && l.channel_peer_id = peerId

/-- Embedding of `findUserByChannelPeer` (db.ts lines 80-95): the JOIN of the
matching link with its user, `LIMIT 1`. -/
def findUserByChannelPeer (db : Db) (channel peerId : String) :
    Option ResolvedIdentity :=
  match db.links.find? (linkKeyIs channel peerId) with
  | none => none
  | some l =>
    match db.users.find? (fun u => u.id = l.user_id) with
    | none => none
    | some u =>
      some { id := u.id
             external_id := u.external_id
             first_name := u.first_name
             last_name := u.last_name
             created_at := u.created_at
             updated_at := u.updated_at
             channel := l.channel
             channel_peer_id := l.channel_peer_id
             verified := u.external_id ≠ none }

/-- Embedding of `findUserByExternalId` (db.ts lines 100-108). -/
def findUserByExternalId (db : Db) (externalId : String) : Option UserRow :=
  db.users.find? (fun u => u.external_id = some externalId)

/-- Embedding of `createUser` (db.ts lines 113-123): INSERT with fresh id,
`created_at`/`updated_at` defaulting to `now()`. -/
def createUser (db : Db) (firstName lastName externalId : Option String)
    (now : Nat) : UserRow × Db :=
  let row : UserRow :=
    { id := db.nextUserId
      external_id := externalId
      first_name := firstName
      last_name := lastName
      created_at := now
      updated_at := now }
  (row, { db with users := db.users ++ [row], nextUserId := db.nextUserId + 1 })

/-- Embedding of `linkChannelToUser` (db.ts lines 128-143): INSERT with
`ON CONFLICT (channel, channel_peer_id) DO UPDATE SET user_id, linked_at`. -/
def linkChannelToUser (db : Db) (userId : Nat) (channel peerId : String)
    (now : Nat) : UserChannelRow × Db :=
  match db.links.find? (linkKeyIs channel peerId) with
  | some l0 =>
    let r := { l0 with user_id := userId, linked_at := now }
    (r, { db with links := db.links.map (fun l =>
            if linkKeyIs channel peerId l then
              { l with user_id := userId, linked_at := now }
            else l) })
  | none =>
    let row : UserChannelRow :=
      { id := db.nextLinkId
        user_id := userId
        channel := channel
        channel_peer_id := peerId
        linked_at := now }
    (row, { db with links := db.links ++ [row],
                    nextLinkId := db.nextLinkId + 1 })

/-- Embedding of `updateUserName` (db.ts lines 148-161): UPDATE by id; the
returned row is `none` when no row matched (`rows[0]` is `undefined`). -/
def updateUserName (db : Db) (userId : Nat) (firstName lastName : String)
    (now : Nat) : Option UserRow × Db :=
  let upd := fun (u : UserRow) =>
    if u.id = userId then
      { u with first_name := some firstName, last_name := some lastName,
               updated_at := now }
    else u
  match db.users.find? (fun u => u.id = userId) with
  | some u0 => (some (upd u0), { db with users := db.users.map upd })
  | none => (none, db)

/-- Embedding of `linkExternalId` (db.ts lines 168-191): if some user already
owns `externalId`, re-link the channel to that user; otherwise UPDATE the
given user in place, setting `external_id`. -/
def linkExternalId (db : Db) (userId : Nat) (externalId : String)
    (channel peerId : String) (now : Nat) : Option UserRow × Db :=
  match findUserByExternalId db externalId with
  | some existing =>
    let step := linkChannelToUser db existing.id channel peerId now
    (some existing, step.2)
  | none =>
    let upd := fun (u : UserRow) =>
      if u.id = userId then
        { u with external_id := some externalId, updated_at := now }
      else u
    match db.users.find? (fun u => u.id = userId) with
    | some u0 => (some (upd u0), { db with users := db.users.map upd })
    | none => (none, db)

/-- Embedding of `listUserChannels` (db.ts lines 196-204), without the
`ORDER BY linked_at` (rows keep insertion order). -/
def listUserChannels (db : Db) (userId : Nat) : List UserChannelRow :=
  db.links.filter (fun l => l.user_id = userId)

/-- The observable outcome of the `/verify` command handler: which reply text
was produced (index.ts lines 224-268).  `failed` is the
"Token verification failed" reply, `alreadyVerified` the
"You're already verified" reply, `success` the "Identity verified!" reply
naming the linked user. -/
inductive VerifyOutcome where
  | failed : VerifyOutcome
  | alreadyVerified : VerifyOutcome
  | success : Nat → VerifyOutcome
deriving DecidableEq

/-- Embedding of the `/verify` command handler (index.ts lines 203-268) from
the point where the token has been checked for emptiness, the auth config
found, and the schema initialised.  `verified` is the awaited result of
`verifyToken` — a pure query that never touches the identity tables — and
`now` the transaction time.  Mirrors the source order: early return on
failure; early return when the current link already carries the verified
external id; otherwise find-or-create the owning user, re-link the channel,
and merge when the peer previously had an unverified user. -/
def verifyCommand (db : Db) (verified : Option Jwt.VerifiedIdentity)
    (channel peerId : String) (now : Nat) : Db × VerifyOutcome :=
  match verified with
  | none => (db, .failed)
  | some v =>
    let existingLink := findUserByChannelPeer db channel peerId
    if existingLink.bind (fun el => el.external_id) = some v.externalId then
      (db, .alreadyVerified)
    else
      let found := findUserByExternalId db v.externalId
      let userStep : UserRow × Db :=
        match found with
        | some u => (u, db)
        | none => createUser db v.firstName v.lastName (some v.externalId) now
      let user := userStep.1
      let db1 := userStep.2
      let db2 := (linkChannelToUser db1 user.id channel peerId now).2
      let db3 :=
        match existingLink with
        | some el =>
          if el.external_id = none ∨ el.external_id = some "" then
            (linkExternalId db2 el.id v.externalId channel peerId now).2
          else db2
        | none => db2
      (db3, .success user.id)

/-- Well-formedness of the identity database, as enforced by the SQL schema
(db.ts lines 43-70): the `(channel, channel_peer_id)` pair is UNIQUE, user
ids are the PRIMARY KEY, `external_id` is UNIQUE among non-null values, and
`user_id` is a foreign key into `lp_users`. -/
def WfDb (db : Db) : Prop :=
  db.links.Pairwise (fun l l' =>
    ¬(l.channel = l'.channel ∧ l.channel_peer_id = l'.channel_peer_id)) ∧
  db.users.Pairwise (fun u u' =>
    u.id ≠ u'.id ∧ (u.external_id = none ∨ u.external_id ≠ u'.external_id)) ∧
  ∀ l ∈ db.links, ∃ u ∈ db.users, u.id = l.user_id

end Identity

-- ===========================================================================
-- Conversation / message persistence ledger
-- extensions/persist-postgres/src/db.ts
-- ===========================================================================

namespace Ledger

/-- Embedding of a `lp_conversations` row (`PgSessionRow`, db.ts lines 3-10).
`message_count` has SQL default 0. -/
structure ConvRow where
  id : Nat
  session_key : String
  channel : String
  started_at : Nat
  last_message_at : Nat
  message_count : Nat
deriving DecidableEq

/-- Embedding of a `lp_messages` row (`PgMessageRow`, db.ts lines 12-19).
The JSONB `metadata` column is carried as an opaque optional string
(`sql.json({})` is modelled as `none`). -/
structure MsgRow where
  id : Nat
  conversation_id : Nat
  role : String
  content : String
  created_at : Nat
  metadata : Option String
deriving DecidableEq

/-- The persistence database: both tables plus the id counters standing in
for `gen_random_uuid()`. -/
structure Db where
  convs : List ConvRow
  msgs : List MsgRow
  nextConvId : Nat
  nextMsgId : Nat
deriving DecidableEq

/-- Embedding of `upsertConversation` (db.ts lines 69-93):
`INSERT ... ON CONFLICT (session_key) DO UPDATE SET last_message_at =
EXCLUDED.last_message_at, message_count = lp_conversations.message_count + 1
RETURNING *`.  On first insert `started_at`/`last_message_at` default to the
supplied options or `now`, and `message_count` takes its column default 0. -/
def upsertConversation (db : Db) (sessionKey channel : String)
    (startedAt lastMessageAt : Option Nat) (now : Nat) : ConvRow × Db :=
  match db.convs.find? (fun c => c.session_key = sessionKey) with
  | some c0 =>
    let r := { c0 with last_message_at := lastMessageAt.getD now,
                       message_count := c0.message_count + 1 }
    (r, { db with convs := db.convs.map (fun c =>
            if c.session_key = sessionKey then
              { c with last_message_at := lastMessageAt.getD now,
                       message_count := c.message_count + 1 }
            else c) })
  | none =>
    let row : ConvRow :=
      { id := db.nextConvId
        session_key := sessionKey
        channel := channel
        started_at := startedAt.getD now
        last_message_at := lastMessageAt.getD now
        message_count := 0 }
    (row, { db with convs := db.convs ++ [row],
                    nextConvId := db.nextConvId + 1 })

/-- Embedding of `insertMessage` (db.ts lines 98-118): a plain INSERT into
`lp_messages`.  It touches no `lp_conversations` column. -/
def insertMessage (db : Db) (conversationId : Nat) (role content : String)
    (metadata : Option String) (now : Nat) : MsgRow × Db :=
  let row : MsgRow :=
    { id := db.nextMsgId
      conversation_id := conversationId
      role := role
      content := content
      created_at := now
      metadata := metadata }
  (row, { db with msgs := db.msgs ++ [row], nextMsgId := db.nextMsgId + 1 })

/-- The message rows attached to a conversation. -/
def messagesFor (db : Db) (conversationId : Nat) : List MsgRow :=
  db.msgs.filter (fun m => m.conversation_id = conversationId)

end Ledger

namespace Identity

instance (db : Db) : Decidable (WfDb db) := by
  unfold WfDb
  infer_instance

end Identity

-- ===========================================================================
-- Concrete fixtures used to instantiate theorems with hypotheses
-- ===========================================================================

namespace Fixtures

/-- A one-user, one-link identity database whose single user already owns the
external id `ext-1` and is linked to the WhatsApp peer `+15551230000`. -/
def linkedDb : Identity.Db :=
  { users := [{ id := 0, external_id := some "ext-1", first_name := some "Ana",
                last_name := some "Lopez", created_at := 0, updated_at := 0 }],
    links := [{ id := 0, user_id := 0, channel := "whatsapp",
                channel_peer_id := "+15551230000", linked_at := 0 }],
    nextUserId := 1, nextLinkId := 1 }

/-- The row `findUserByChannelPeer` resolves for that peer. -/
def linkedRow : Identity.ResolvedIdentity :=
  { id := 0, external_id := some "ext-1", first_name := some "Ana",
    last_name := some "Lopez", created_at := 0, updated_at := 0,
    channel := "whatsapp", channel_peer_id := "+15551230000",
    verified := true }

/-- A verified identity carrying the same external id `ext-1`. -/
def linkedIdent : Jwt.VerifiedIdentity :=
  { externalId := "ext-1", firstName := some "Ana",
    lastName := some "Lopez", email := none,
    raw := { sub := some "ext-1", given_name := none, family_name := none,
             name := none, email := none, exp := none, iss := none,
             aud := .absent } }

/-- A stand-in for the keyed hash: every input digests to `dd`. -/
def hmacFixed : String → String → String := fun _ _ => "dd"

/-- A stand-in for base64url decoding: the code points of the string. -/
def decodeBytes : String → List Nat := fun s => s.data.map Char.toNat

/-- A configuration with a secret and no issuer/audience constraint. -/
def cfgBasic : Jwt.AuthConfig :=
  { jwtSecret := some "topsecret", issuer := none, audience := none }

/-- A payload with subject `user-1` and the given expiry claim. -/
def payloadExp (e : Option Int) : Jwt.JWTPayload :=
  { sub := some "user-1", given_name := none, family_name := none,
    name := none, email := none, exp := e, iss := none, aud := .absent }

/-- A stand-in for payload decoding: three named payload segments carrying an
expiry one second in the past, one second in the future, and zero, measured
against `now = 100`. -/
def parseByName : String → Option Jwt.JWTPayload := fun s =>
  if s = "past" then some (payloadExp (some 99))
  else if s = "future" then some (payloadExp (some 101))
  else if s = "zero" then some (payloadExp (some 0))
  else none

/-- An unverified scope result. -/
def unverifiedScope : Scope.ScopeResult :=
  { userId := "uuid-456", externalId := none, scopeKey := "uuid-456",
    verified := false, channel := "whatsapp", peerId := "+1234567890" }

/-- A verified scope result keyed by its external id. -/
def verifiedScope : Scope.ScopeResult :=
  { userId := "uuid-123", externalId := some "ext-abc",
    scopeKey := "ext-abc", verified := true, channel := "telegram",
    peerId := "tg-user" }

/-- A configuration that requires verification, with the default gate
message. -/
def gateCfg : Scope.ScopeConfig :=
  { requireVerified := some true, gateMessage := none }

end Fixtures

-- ===========================================================================
-- Lemmas about the split embedding
-- ===========================================================================

namespace Js

theorem splitCharList_ne_nil (sep : Char) (l : List Char) :
    splitCharList sep l ≠ [] := by
  cases l with
  | nil => simp [splitCharList]
  | cons c rest =>
    simp only [splitCharList]
    cases splitCharList sep rest with
    | nil => simp
    | cons h t =>
      by_cases hc : c = sep <;> simp [hc]

theorem splitCharList_sepFree (sep : Char) (l : List Char) (h : sep ∉ l) :
    splitCharList sep l = [l] := by
  induction l with
  | nil => rfl
  | cons c rest ih =>
    have hc : c ≠ sep := fun hcs => h (hcs ▸ List.mem_cons_self c rest)
    have hrest : sep ∉ rest := fun hm => h (List.mem_cons_of_mem c hm)
    simp only [splitCharList, ih hrest]
    simp [fun hcs => hc hcs]

theorem splitCharList_append (sep : Char) (a rest : List Char) (h : sep ∉ a) :
    splitCharList sep (a ++ sep :: rest) = a :: splitCharList sep rest := by
  induction a with
  | nil =>
    simp only [List.nil_append, splitCharList]
    cases hr : splitCharList sep rest with
    | nil => exact absurd hr (splitCharList_ne_nil sep rest)
    | cons h t => simp
  | cons c a' ih =>
    have hc : c ≠ sep := fun hcs => h (hcs ▸ List.mem_cons_self c a')
    have ha' : sep ∉ a' := fun hm => h (List.mem_cons_of_mem c hm)
    show splitCharList sep (c :: (a' ++ sep :: rest)) = _
    simp only [splitCharList]
    rw [ih ha']
    simp [hc]

theorem data_append (s t : String) : (s ++ t).data = s.data ++ t.data := rfl

theorem mk_data (s : String) : String.mk s.data = s := rfl

end Js

namespace Parse

theorem split_sessionKey5 (a c p1 p2 : String)
    (ha : colonFree a) (hc : colonFree c) (h1 : colonFree p1)
    (h2 : colonFree p2) :
    Js.split ':' (sessionKey5 a c p1 p2) = ["agent", a, c, p1, p2] := by
  have hdata : (sessionKey5 a c p1 p2).data =
      "agent".data ++ ':' :: (a.data ++ ':' :: (c.data ++ ':' ::
        (p1.data ++ ':' :: p2.data))) := by
    simp [sessionKey5, Js.data_append]
  unfold Js.split
  rw [hdata]
  rw [Js.splitCharList_append ':' "agent".data _ (by decide)]
  rw [Js.splitCharList_append ':' a.data _ ha]
  rw [Js.splitCharList_append ':' c.data _ hc]
  rw [Js.splitCharList_append ':' p1.data _ h1]
  rw [Js.splitCharList_sepFree ':' p2.data h2]
  simp [Js.mk_data]

end Parse

-- ===========================================================================
-- General helper lemmas
-- ===========================================================================

theorem filter_length_eq_one {α : Type} {p : α → Bool} {l : List α} {a : α}
    (ha : a ∈ l) (hpa : p a = true)
    (hu : l.Pairwise (fun x y => ¬(p x = true ∧ p y = true))) :
    (l.filter p).length = 1 := by
  induction l with
  | nil => cases ha
  | cons b t ih =>
    rcases List.pairwise_cons.mp hu with ⟨hb, ht⟩
    by_cases hpb : p b = true
    · have hnil : t.filter p = [] := by
        apply List.filter_eq_nil_iff.mpr
        intro x hx hpx
        exact hb x hx ⟨hpb, hpx⟩
      simp [List.filter_cons, hpb, hnil]
    · have hat : a ∈ t := by
        rcases List.mem_cons.mp ha with h | h
        · exact absurd (h ▸ hpa) hpb
        · exact h
      simp [List.filter_cons, hpb, ih hat ht]

-- ===========================================================================
-- C1 — persistence counter invariant
-- ===========================================================================

/-- C1: refuted by the code.  The claim says `message_count` always equals
the number of message rows attached to the conversation, that an
`upsertConversation` for an existing session key followed by zero message
inserts leaves the counter unchanged, and that the counter increases only on
an actual message insert.  In the source, `upsertConversation`'s
`ON CONFLICT` clause increments `message_count` unconditionally and
`insertMessage` never touches it: after two upserts of the same session key
and no message insert the stored counter is 1 while zero message rows exist,
and after two message inserts the counter is still 1 while two rows exist. -/
theorem c1_message_count_drift :
    let db0 : Ledger.Db := { convs := [], msgs := [], nextConvId := 0, nextMsgId := 0 }
    let s1 := (Ledger.upsertConversation db0 "agent:main:telegram:u1" "gateway" none (some 5) 5).2
    let s2 := (Ledger.upsertConversation s1 "agent:main:telegram:u1" "gateway" none (some 6) 6).2
    let s3 := (Ledger.insertMessage s2 0 "user" "hi" none 7).2
    let s4 := (Ledger.insertMessage s3 0 "assistant" "hello" none 8).2
    ((s2.convs.find? (fun c => c.session_key = "agent:main:telegram:u1")).map
        Ledger.ConvRow.message_count = some 1 ∧
      (Ledger.messagesFor s2 0).length = 0) ∧
    ((s4.convs.find? (fun c => c.session_key = "agent:main:telegram:u1")).map
        Ledger.ConvRow.message_count = some 1 ∧
      (Ledger.messagesFor s4 0).length = 2) := by
  decide

-- ===========================================================================
-- C2 — /verify on a registered, unverified peer
-- ===========================================================================

/-- C2: refuted by the code.  The claim says that when the peer is already
linked to a registered, unverified user and nobody owns the verified
external id, `/verify` upgrades that linked user in place, creates no new
user row, and leaves the link pointing at the same user.  In the source the
handler calls `createUser` before `linkExternalId`, so the freshly created
user already owns the external id by the time `linkExternalId` looks it up
and its in-place upgrade branch never runs: a second user row (id 1) is
created, the channel link is reassigned to it, and the original user (id 0)
keeps `external_id = NULL`. -/
theorem c2_verify_creates_new_user :
    let db0 : Identity.Db :=
      { users := [{ id := 0, external_id := none, first_name := some "Ana",
                    last_name := some "Lopez", created_at := 0, updated_at := 0 }],
        links := [{ id := 0, user_id := 0, channel := "whatsapp",
                    channel_peer_id := "+15551230000", linked_at := 0 }],
        nextUserId := 1, nextLinkId := 1 }
    let v : Jwt.VerifiedIdentity :=
      { externalId := "ext-42", firstName := some "Ana",
        lastName := some "Lopez", email := none,
        raw := { sub := some "ext-42", given_name := none, family_name := none,
                 name := none, email := none, exp := none, iss := none,
                 aud := .absent } }
    let after := Identity.verifyCommand db0 (some v) "whatsapp" "+15551230000" 7
    after.2 = .success 1 ∧
    after.1.users.length = 2 ∧
    (after.1.users.find? (fun u => u.id = 0)).map Identity.UserRow.external_id
      = some none ∧
    (after.1.links.find? (Identity.linkKeyIs "whatsapp" "+15551230000")).map
        Identity.UserChannelRow.user_id = some 1 := by
  decide

-- ===========================================================================
-- C9 — failed verification changes no state
-- ===========================================================================

/-- C9: when token verification fails (invalid token, or transport
failure/timeout of the remote endpoint — both surface as a `null` result of
`verifyToken`, which is itself a pure query over the token and never touches
the identity tables), the `/verify` handler returns the failure reply and
the identity database is exactly unchanged: no user row and no channel link
row is created, updated, or re-linked. -/
theorem c9_verify_failure_no_state_change (db : Identity.Db)
    (channel peerId : String) (now : Nat) :
    Identity.verifyCommand db none channel peerId now =
      (db, Identity.VerifyOutcome.failed) := rfl

-- ===========================================================================
-- C4 — scope-key selection
-- ===========================================================================

/-- C4: for every resolved identity, `resolveScope`'s `scopeKey` field equals
`external_id` whenever `external_id` is non-none, and equals the user id
otherwise. -/
theorem c4_scope_key_selection (identity : Scope.IdentityRow)
    (channel peerId : String) :
    (∀ e, identity.external_id = some e →
      (Scope.resolveScope identity channel peerId).scopeKey = e) ∧
    (identity.external_id = none →
      (Scope.resolveScope identity channel peerId).scopeKey = identity.id) := by
  constructor
  · intro e he
    simp [Scope.resolveScope, he]
  · intro he
    simp [Scope.resolveScope, he]

/-- Witness for C4 at concrete identities: a verified row keyed by its
external id, an unverified row keyed by its user id. -/
theorem c4_scope_key_selection_witness :
    (Scope.resolveScope
      { id := "uuid-123", external_id := some "ext-abc",
        first_name := some "Jane", last_name := some "Doe",
        channel := "telegram", channel_peer_id := "tg-user", verified := true }
      "telegram" "tg-user").scopeKey = "ext-abc" ∧
    (Scope.resolveScope
      { id := "uuid-456", external_id := none, first_name := some "John",
        last_name := none, channel := "whatsapp",
        channel_peer_id := "+1234567890", verified := false }
      "whatsapp" "+1234567890").scopeKey = "uuid-456" :=
  ⟨(c4_scope_key_selection _ "telegram" "tg-user").1 "ext-abc" rfl,
   (c4_scope_key_selection _ "whatsapp" "+1234567890").2 rfl⟩

-- ===========================================================================
-- C5 — colon-preserving peer ids
-- ===========================================================================

/-- C5, counterexample: the claim quantifies over all peer segments, but for
`p1 = "direct"` the parser treats the segment as the direct marker of the
`agent:{agentId}:{channel}:direct:{peerId}` format and returns only `p2`.
At `agent:main:telegram:direct:xyz` the channel is `telegram` as claimed,
yet the peer id is `xyz`, not `direct:xyz`. -/
theorem c5_counterexample :
    Parse.deriveChannel "agent:main:telegram:direct:xyz" = "telegram" ∧
    ("agent:main:telegram:direct:xyz" : String) =
      Parse.sessionKey5 "main" "telegram" "direct" "xyz" ∧
    Parse.derivePeerId "agent:main:telegram:direct:xyz" = "xyz" ∧
    Parse.derivePeerId "agent:main:telegram:direct:xyz" ≠
      "direct" ++ ":" ++ "xyz" := by
  decide

/-- C5, amended: for all colon-free segments `a`, `c`, `p1`, `p2` with
`p1 ≠ "direct"`, parsing the session key `agent:{a}:{c}:{p1}:{p2}` yields
channel `c` and peer id `{p1}:{p2}` — the parser re-joins colon-containing
peer ids rather than splitting them further. -/
theorem c5_amended (a c p1 p2 : String)
    (ha : Parse.colonFree a) (hc : Parse.colonFree c)
    (h1 : Parse.colonFree p1) (h2 : Parse.colonFree p2)
    (hdir : p1 ≠ "direct") :
    Parse.deriveChannel (Parse.sessionKey5 a c p1 p2) = c ∧
    Parse.derivePeerId (Parse.sessionKey5 a c p1 p2) = p1 ++ ":" ++ p2 := by
  have hs := Parse.split_sessionKey5 a c p1 p2 ha hc h1 h2
  constructor
  · unfold Parse.deriveChannel
    rw [hs]
    simp [List.getD]
  · unfold Parse.derivePeerId
    rw [hs]
    by_cases hcd : c = "direct"
    · simp [List.getD, Js.indexOfStr, hcd, Js.join]
    · by_cases h2d : p2 = "direct"
      · simp [List.getD, Js.indexOfStr, hcd, hdir, h2d, Js.join]
      · simp [List.getD, Js.indexOfStr, hcd, hdir, h2d, Js.join]

/-- Witness for C5 (amended) at a concrete phone-number-style peer id. -/
theorem c5_amended_witness :
    Parse.colonFree "main" ∧ Parse.colonFree "whatsapp" ∧
    Parse.colonFree "+1" ∧ Parse.colonFree "5551230000" ∧
    ("+1" : String) ≠ "direct" ∧
    (Parse.deriveChannel (Parse.sessionKey5 "main" "whatsapp" "+1" "5551230000")
        = "whatsapp" ∧
      Parse.derivePeerId (Parse.sessionKey5 "main" "whatsapp" "+1" "5551230000")
        = "+1" ++ ":" ++ "5551230000") :=
  ⟨by decide, by decide, by decide, by decide, by decide,
   c5_amended "main" "whatsapp" "+1" "5551230000"
     (by decide) (by decide) (by decide) (by decide) (by decide)⟩

-- ===========================================================================
-- C3 — /verify idempotence for an already-correctly-linked peer
-- ===========================================================================

/-- C3: for a well-formed database in which the `(channel, peer_id)` pair is
already linked to the user owning the token's external id, `/verify` is a
no-op that reports "already verified": the database is returned exactly
unchanged, a second call returns it unchanged again, and exactly one channel
link row exists for that peer and exactly one user row owns that external id
— no duplicate link, no duplicate user. -/
theorem c3_verify_idempotent (db : Identity.Db) (channel peerId : String)
    (now : Nat) (v : Jwt.VerifiedIdentity) (el : Identity.ResolvedIdentity)
    (hwf : Identity.WfDb db)
    (hfind : Identity.findUserByChannelPeer db channel peerId = some el)
    (hext : el.external_id = some v.externalId) :
    Identity.verifyCommand db (some v) channel peerId now =
      (db, Identity.VerifyOutcome.alreadyVerified) ∧
    Identity.verifyCommand
        (Identity.verifyCommand db (some v) channel peerId now).1
        (some v) channel peerId now =
      (db, Identity.VerifyOutcome.alreadyVerified) ∧
    (db.links.filter (Identity.linkKeyIs channel peerId)).length = 1 ∧
    (db.users.filter (fun u => u.external_id = some v.externalId)).length = 1 := by
  have h1 : Identity.verifyCommand db (some v) channel peerId now =
      (db, Identity.VerifyOutcome.alreadyVerified) := by
    simp [Identity.verifyCommand, hfind, hext]
  refine ⟨h1, by rw [h1]; exact h1, ?_, ?_⟩
  · -- exactly one link row for the peer
    unfold Identity.findUserByChannelPeer at hfind
    cases hl : db.links.find? (Identity.linkKeyIs channel peerId) with
    | none => simp [hl] at hfind
    | some l =>
      have hmem := List.mem_of_find?_eq_some hl
      have hkey := List.find?_some hl
      apply filter_length_eq_one hmem hkey
      apply hwf.1.imp
      intro x y hxy ⟨hx, hy⟩
      simp only [Identity.linkKeyIs, Bool.and_eq_true, decide_eq_true_eq] at hx hy
      exact hxy ⟨hx.1.trans hy.1.symm, hx.2.trans hy.2.symm⟩
  · -- exactly one user row owning the external id
    unfold Identity.findUserByChannelPeer at hfind
    cases hl : db.links.find? (Identity.linkKeyIs channel peerId) with
    | none => simp [hl] at hfind
    | some l =>
      simp only [hl] at hfind
      cases hu : db.users.find? (fun u => u.id = l.user_id) with
      | none => simp [hu] at hfind
      | some u =>
        simp only [hu, Option.some.injEq] at hfind
        have huext : u.external_id = some v.externalId := by
          rw [← hfind] at hext
          simpa using hext
        have hmem := List.mem_of_find?_eq_some hu
        apply filter_length_eq_one hmem (by simp [huext])
        apply hwf.2.1.imp
        intro x y hxy ⟨hx, hy⟩
        simp only [decide_eq_true_eq] at hx hy
        rcases hxy.2 with h | h
        · rw [hx] at h; cases h
        · exact h (hx.trans hy.symm)

/-- Witness for C3 at a concrete one-user, one-link database. -/
theorem c3_verify_idempotent_witness :
    Identity.WfDb Fixtures.linkedDb ∧
    Identity.findUserByChannelPeer Fixtures.linkedDb "whatsapp" "+15551230000"
      = some Fixtures.linkedRow ∧
    Fixtures.linkedRow.external_id = some Fixtures.linkedIdent.externalId ∧
    Identity.verifyCommand Fixtures.linkedDb (some Fixtures.linkedIdent)
        "whatsapp" "+15551230000" 7 =
      (Fixtures.linkedDb, Identity.VerifyOutcome.alreadyVerified) :=
  ⟨by decide, by decide, by decide,
   (c3_verify_idempotent Fixtures.linkedDb "whatsapp" "+15551230000" 7
      Fixtures.linkedIdent Fixtures.linkedRow
      (by decide) (by decide) (by decide)).1⟩

-- ===========================================================================
-- Substring helper lemmas
-- ===========================================================================

theorem isPrefixList_append (pat x y : List Char)
    (h : Js.isPrefixList pat x = true) :
    Js.isPrefixList pat (x ++ y) = true := by
  induction pat generalizing x with
  | nil => rfl
  | cons a as ih =>
    cases x with
    | nil => cases h
    | cons b bs =>
      simp only [Js.isPrefixList, Bool.and_eq_true] at h
      simp only [List.cons_append, Js.isPrefixList, Bool.and_eq_true]
      exact ⟨h.1, ih bs h.2⟩

theorem hasInfixList_append_right (pat x y : List Char)
    (h : Js.hasInfixList pat x = true) :
    Js.hasInfixList pat (x ++ y) = true := by
  induction x with
  | nil =>
    simp only [Js.hasInfixList] at h
    cases pat with
    | nil =>
      cases y with
      | nil => rfl
      | cons c r => simp [Js.hasInfixList, Js.isPrefixList]
    | cons a as => cases h
  | cons c rest ih =>
    simp only [Js.hasInfixList, Bool.or_eq_true] at h
    simp only [List.cons_append, Js.hasInfixList, Bool.or_eq_true]
    rcases h with h | h
    · exact Or.inl (by
        have := isPrefixList_append pat (c :: rest) y h
        simpa using this)
    · exact Or.inr (ih h)

theorem hasInfixList_append_left (pat x y : List Char)
    (h : Js.hasInfixList pat y = true) :
    Js.hasInfixList pat (x ++ y) = true := by
  induction x with
  | nil => simpa using h
  | cons c rest ih =>
    simp only [List.cons_append, Js.hasInfixList, Bool.or_eq_true]
    exact Or.inr ih

theorem strEq_of_data (a b : String) (h : a.data = b.data) : a = b := by
  cases a with
  | mk xs =>
    cases b with
    | mk ys =>
      simp only at h
      rw [h]

theorem strContains_append_fst (x y pat : String)
    (h : Js.strContains x pat = true) :
    Js.strContains (x ++ y) pat = true := by
  unfold Js.strContains at h ⊢
  rw [Js.data_append]
  exact hasInfixList_append_right pat.data x.data y.data h

theorem strContains_append_snd (x y pat : String)
    (h : Js.strContains y pat = true) :
    Js.strContains (x ++ y) pat = true := by
  unfold Js.strContains at h ⊢
  rw [Js.data_append]
  exact hasInfixList_append_left pat.data x.data y.data h

-- ===========================================================================
-- C6 — mismatched signatures are always rejected
-- ===========================================================================

/-- C6: `verifyHS256` never returns a decoded payload for a token whose
supplied signature does not match the keyed hash recomputed over
header+payload: whenever the decoded signature segment differs from the
decoded recomputed digest — in particular after any tampering of the
signature that changes its decoded bytes, such as altering one signature
byte — the result is `none`.  The theorem holds for every keyed-hash and
every decoding primitive. -/
theorem c6_signature_mismatch_rejected
    (hmac : String → String → String) (decode64 : String → List Nat)
    (parseJson : String → Option Jwt.JWTPayload) (now : Int)
    (token header payload signature : String) (config : Jwt.AuthConfig)
    (hsplit : Js.split '.' token = [header, payload, signature])
    (hne : decode64 signature ≠
      decode64 (hmac (config.jwtSecret.getD "") (header ++ "." ++ payload))) :
    Jwt.verifyHS256 hmac decode64 parseJson now token config = none := by
  unfold Jwt.verifyHS256
  rw [hsplit]
  simp [hne]

/-- Witness for C6: a concrete token whose signature segment decodes to
bytes different from the recomputed digest is rejected. -/
theorem c6_signature_mismatch_rejected_witness :
    Js.split '.' "aa.bb.cc" = ["aa", "bb", "cc"] ∧
    Fixtures.decodeBytes "cc" ≠
      Fixtures.decodeBytes
        (Fixtures.hmacFixed (Fixtures.cfgBasic.jwtSecret.getD "")
          ("aa" ++ "." ++ "bb")) ∧
    Jwt.verifyHS256 Fixtures.hmacFixed Fixtures.decodeBytes
      Fixtures.parseByName 100 "aa.bb.cc" Fixtures.cfgBasic = none :=
  ⟨by decide, by decide,
   c6_signature_mismatch_rejected Fixtures.hmacFixed Fixtures.decodeBytes
     Fixtures.parseByName 100 "aa.bb.cc" "aa" "bb" "cc" Fixtures.cfgBasic
     (by decide) (by decide)⟩

-- ===========================================================================
-- C7 — strict less-than expiry boundary
-- ===========================================================================

/-- C7: for an otherwise-valid token (well-formed, matching signature,
decodable payload, issuer/audience checks passing, subject present), an
`exp` claim one second before the current time is rejected while an `exp`
claim one second after the current time yields a verified identity; the
boundary is strict less-than on the expiry timestamp.  (`1 < now` holds for
any actual Unix clock reading; it rules out the separate `exp = 0`
truthiness corner treated by C10.) -/
theorem c7_expiry_boundary
    (hmac : String → String → String) (decode64 : String → List Nat)
    (parseJson : String → Option Jwt.JWTPayload) (now : Int)
    (config : Jwt.AuthConfig)
    (tokPast hPast pPast sPast : String) (dPast : Jwt.JWTPayload)
    (tokFut hFut pFut sFut : String) (dFut : Jwt.JWTPayload)
    (hnow : 1 < now)
    (hsplitPast : Js.split '.' tokPast = [hPast, pPast, sPast])
    (hsigPast : decode64 sPast =
      decode64 (hmac (config.jwtSecret.getD "") (hPast ++ "." ++ pPast)))
    (hparsePast : parseJson pPast = some dPast)
    (hexpPast : dPast.exp = some (now - 1))
    (hsplitFut : Js.split '.' tokFut = [hFut, pFut, sFut])
    (hsigFut : decode64 sFut =
      decode64 (hmac (config.jwtSecret.getD "") (hFut ++ "." ++ pFut)))
    (hparseFut : parseJson pFut = some dFut)
    (hexpFut : dFut.exp = some (now + 1))
    (hissFut : Jwt.issRejected config.issuer dFut.iss = false)
    (haudFut : Jwt.audRejected config.audience dFut.aud = false)
    (hsubFut : Js.strTruthy dFut.sub = true) :
    Jwt.verifyHS256 hmac decode64 parseJson now tokPast config = none ∧
    (Jwt.verifyHS256 hmac decode64 parseJson now tokFut config).isSome
      = true := by
  constructor
  · have hne1 : now - 1 ≠ 0 := by omega
    have hrej : Jwt.expRejected dPast.exp now = true := by
      rw [hexpPast]
      simp [Jwt.expRejected, hne1]
    unfold Jwt.verifyHS256
    rw [hsplitPast]
    simp [hsigPast, hparsePast, hrej]
  · have hrej : Jwt.expRejected dFut.exp now = false := by
      rw [hexpFut]
      simp [Jwt.expRejected]
    unfold Jwt.verifyHS256
    rw [hsplitFut]
    simp [hsigFut, hparseFut, hrej, hissFut, haudFut, hsubFut]

/-- Witness for C7 at `now = 100`: expiry 99 is rejected, expiry 101 is
accepted. -/
theorem c7_expiry_boundary_witness :
    Fixtures.parseByName "past" = some (Fixtures.payloadExp (some (100 - 1))) ∧
    Fixtures.parseByName "future" = some (Fixtures.payloadExp (some (100 + 1))) ∧
    (Jwt.verifyHS256 Fixtures.hmacFixed Fixtures.decodeBytes
        Fixtures.parseByName 100 "aa.past.dd" Fixtures.cfgBasic = none ∧
      (Jwt.verifyHS256 Fixtures.hmacFixed Fixtures.decodeBytes
          Fixtures.parseByName 100 "aa.future.dd" Fixtures.cfgBasic).isSome
        = true) :=
  ⟨by decide, by decide,
   c7_expiry_boundary Fixtures.hmacFixed Fixtures.decodeBytes
     Fixtures.parseByName 100 Fixtures.cfgBasic
     "aa.past.dd" "aa" "past" "dd" (Fixtures.payloadExp (some 99))
     "aa.future.dd" "aa" "future" "dd" (Fixtures.payloadExp (some 101))
     (by decide) (by decide) (by decide) (by decide) (by decide)
     (by decide) (by decide) (by decide) (by decide)
     (by decide) (by decide) (by decide)⟩

-- ===========================================================================
-- C10 — zero or absent expiry skips the expiry check
-- ===========================================================================

/-- C10: local signature verification skips the expiry check when the
decoded payload has no `exp` claim or an `exp` claim equal to 0 (falsy in
the `decoded.exp && decoded.exp < now` guard): a token with a valid
signature and a subject claim but `exp = 0` — i.e. long expired — is
accepted and returns a verified identity rather than being rejected as
expired, whatever the current time. -/
theorem c10_zero_exp_accepted
    (hmac : String → String → String) (decode64 : String → List Nat)
    (parseJson : String → Option Jwt.JWTPayload) (now : Int)
    (token header payload signature : String) (config : Jwt.AuthConfig)
    (d : Jwt.JWTPayload)
    (hsplit : Js.split '.' token = [header, payload, signature])
    (hsig : decode64 signature =
      decode64 (hmac (config.jwtSecret.getD "") (header ++ "." ++ payload)))
    (hparse : parseJson payload = some d)
    (hexp : d.exp = some 0 ∨ d.exp = none)
    (hiss : Jwt.issRejected config.issuer d.iss = false)
    (haud : Jwt.audRejected config.audience d.aud = false)
    (hsub : Js.strTruthy d.sub = true) :
    Jwt.verifyHS256 hmac decode64 parseJson now token config =
      some { externalId := d.sub.getD ""
             firstName := (Jwt.nameFromPayload d).1
             lastName := (Jwt.nameFromPayload d).2
             email := d.email
             raw := d } := by
  have hrej : Jwt.expRejected d.exp now = false := by
    rcases hexp with h | h <;> simp [Jwt.expRejected, h]
  unfold Jwt.verifyHS256
  rw [hsplit]
  simp [hsig, hparse, hrej, hiss, haud, hsub]

/-- Witness for C10: a concrete token with `exp = 0` and a valid signature
is accepted at `now = 100`. -/
theorem c10_zero_exp_accepted_witness :
    (Fixtures.payloadExp (some 0)).exp = some 0 ∧
    Jwt.verifyHS256 Fixtures.hmacFixed Fixtures.decodeBytes
        Fixtures.parseByName 100 "aa.zero.dd" Fixtures.cfgBasic =
      some { externalId := (Fixtures.payloadExp (some 0)).sub.getD ""
             firstName := (Jwt.nameFromPayload (Fixtures.payloadExp (some 0))).1
             lastName := (Jwt.nameFromPayload (Fixtures.payloadExp (some 0))).2
             email := (Fixtures.payloadExp (some 0)).email
             raw := Fixtures.payloadExp (some 0) } :=
  ⟨by decide,
   c10_zero_exp_accepted Fixtures.hmacFixed Fixtures.decodeBytes
     Fixtures.parseByName 100 "aa.zero.dd" "aa" "zero" "dd" Fixtures.cfgBasic
     (Fixtures.payloadExp (some 0))
     (by decide) (by decide) (by decide) (Or.inl (by decide))
     (by decide) (by decide) (by decide)⟩

-- ===========================================================================
-- C8 — gating of the scope block
-- ===========================================================================

/-- C8: when `requireVerified` is set and the identity is not verified,
`formatScopeBlock` produces the gated block — it equals
`formatGatedMessage config` (so it reveals nothing about the scope result),
contains `gated: true`, and (for the default gate message) contains none of
the `scope_key:`, `user_id:`, `external_id:`, `verified:` field lines;
otherwise (identity verified, or `requireVerified` unset) it produces the
scope block carrying `scope_key`, `user_id`, `external_id`, `verified`, and
`gated: false`. -/
theorem c8_gating (scope : Scope.ScopeResult) (config : Scope.ScopeConfig) :
    (config.requireVerified.getD false = true → scope.verified = false →
      Scope.formatScopeBlock scope config = Scope.formatGatedMessage config ∧
      Js.strContains (Scope.formatScopeBlock scope config) "gated: true"
        = true ∧
      (config.gateMessage = none →
        Js.strContains (Scope.formatScopeBlock scope config) "scope_key:"
          = false ∧
        Js.strContains (Scope.formatScopeBlock scope config) "user_id:"
          = false ∧
        Js.strContains (Scope.formatScopeBlock scope config) "external_id:"
          = false ∧
        Js.strContains (Scope.formatScopeBlock scope config) "verified:"
          = false)) ∧
    (¬(config.requireVerified.getD false = true ∧ scope.verified = false) →
      Scope.formatScopeBlock scope config =
        "[MEMORY_SCOPE]\nscope_key: " ++ scope.scopeKey ++
        "\nuser_id: " ++ scope.userId ++
        "\nexternal_id: " ++ scope.externalId.getD "none" ++
        "\nverified: " ++ (if scope.verified then "true" else "false") ++
        "\ngated: false\n[/MEMORY_SCOPE]") := by
  constructor
  · intro hrv hv
    have hout : Scope.formatScopeBlock scope config =
        Scope.formatGatedMessage config := by
      simp [Scope.formatScopeBlock, hrv, hv]
    refine ⟨hout, ?_, ?_⟩
    · rw [hout]
      unfold Scope.formatGatedMessage
      cases hmsg : config.gateMessage with
      | none => decide
      | some m =>
        simp only [hmsg, Option.map_some', Option.getD_some]
        by_cases ht : Js.strTruthy (some m.trim) = true
        · simp only [ht, if_true]
          have hjoin : Js.join "\n"
              (["[MEMORY_SCOPE]", "gated: true", "[/MEMORY_SCOPE]", ""]
                ++ [m.trim])
              = "[MEMORY_SCOPE]\n" ++
                ("gated: true" ++ ("\n[/MEMORY_SCOPE]\n\n" ++ m.trim)) := by
            apply strEq_of_data
            simp [Js.join, Js.data_append]
          rw [hjoin]
          apply strContains_append_snd
          apply strContains_append_fst
          decide
        · simp only [Bool.not_eq_true] at ht
          simp only [ht, Bool.false_eq_true, if_false]
          decide
    · intro hmsg
      rw [hout]
      unfold Scope.formatGatedMessage
      simp only [hmsg]
      decide
  · intro hcase
    unfold Scope.formatScopeBlock
    rw [if_neg hcase]
    apply strEq_of_data
    simp [Js.join, Js.data_append]

/-- Witness for C8: the default-configured gate withholds the field lines
for an unverified identity, and the same configuration emits the full scope
block for a verified identity. -/
theorem c8_gating_witness :
    (Scope.formatScopeBlock Fixtures.unverifiedScope Fixtures.gateCfg =
        Scope.formatGatedMessage Fixtures.gateCfg ∧
      Js.strContains
        (Scope.formatScopeBlock Fixtures.unverifiedScope Fixtures.gateCfg)
        "gated: true" = true ∧
      Js.strContains
        (Scope.formatScopeBlock Fixtures.unverifiedScope Fixtures.gateCfg)
        "scope_key:" = false) ∧
    Scope.formatScopeBlock Fixtures.verifiedScope Fixtures.gateCfg =
      "[MEMORY_SCOPE]\nscope_key: " ++ Fixtures.verifiedScope.scopeKey ++
      "\nuser_id: " ++ Fixtures.verifiedScope.userId ++
      "\nexternal_id: " ++ Fixtures.verifiedScope.externalId.getD "none" ++
      "\nverified: " ++
      (if Fixtures.verifiedScope.verified then "true" else "false") ++
      "\ngated: false\n[/MEMORY_SCOPE]" := by
  have h1 := (c8_gating Fixtures.unverifiedScope Fixtures.gateCfg).1
    (by decide) (by decide)
  exact ⟨⟨h1.1, h1.2.1, (h1.2.2 rfl).1⟩,
    (c8_gating Fixtures.verifiedScope Fixtures.gateCfg).2 (by decide)⟩
